import Mathlib

/-!
Verification of the veleda real-time controller gateway and its
configuration module.

The configuration definitions are shallow embeddings of `core/config.py`.
The gateway components (token resolver, connection registry, controller
channel, relay gateway) are shipped in this repository only through their
test-suite, so they are modelled from the specification text
(sections 3-7 of the spec) and checked against the behaviour the tests
pin down.
-/

/- ## Configuration module (`core/config.py`) -/

/-- A process environment: an association list from variable names to
values. `envGet` models `os.environ.get`, returning `none` for an unset
variable. -/
abbrev EnvMap := List (String × String)

/-- Model of `os.environ.get(key)`. -/
def envGet (env : EnvMap) (key : String) : Option String :=
  match env.find? (fun p => p.1 == key) with
  | some p => some p.2
  | none => none

/-- Model of `os.environ[key] = value`: overwrite any earlier binding of `key`. -/
def envSet (env : EnvMap) (key value : String) : EnvMap :=
  (key, value) :: env.filter (fun p => !(p.1 == key))

/-- Python truthiness of an `os.environ.get` result: `None` and the empty
string are falsy, every other string is truthy. -/
def truthy : Option String → Bool
  | none => false
  | some s => !(s == "")

/-- One iteration of the `secrets.core` import loop
(`core/config.py` lines 15-18): `var = line.strip().split('=')`; when
`len(var) == 2` the environment variable named `var[0]` is set to
`var[1].replace('"', '')`, i.e. the second part with every double-quote
character removed; otherwise the line has no effect. -/
def processLine (env : EnvMap) (line : String) : EnvMap :=
  match line.trim.splitOn "=" with
  | [name, value] => envSet env name (value.replace "\"" "")
  | _ => env

/-- The whole `secrets.core` import loop: the lines of the file are
processed in order, threading the environment through. -/
def importSecrets (env : EnvMap) (lines : List String) : EnvMap :=
  lines.foldl processLine env

/-- The class attribute `Config.GRAFANA_CLIENT_ID` (`core/config.py` line 43). -/
def GRAFANA_CLIENT_ID (env : EnvMap) : Option String :=
  envGet env "GF_AUTH_GENERIC_OAUTH_CLIENT_ID"

/-- The class attribute `Config.GRAFANA_CLIENT_SECRET` (`core/config.py` line 44). -/
def GRAFANA_CLIENT_SECRET (env : EnvMap) : Option String :=
  envGet env "GF_AUTH_GENERIC_OAUTH_CLIENT_SECRET"

/-- The class attribute `Config.GRAFANA_REDIRECT_URI` (`core/config.py` line 45). -/
def GRAFANA_REDIRECT_URI (env : EnvMap) : Option String :=
  envGet env "GRAFANA_REDIRECT_URI"

/-- The class attribute `Config.GRAFANA_SCOPES` (`core/config.py` line 46). -/
def GRAFANA_SCOPES (env : EnvMap) : Option String :=
  envGet env "GF_AUTH_GENERIC_OAUTH_SCOPES"

/-- The class attribute `Config.RAYGUN_APIKEY` (`core/config.py` line 50). -/
def RAYGUN_APIKEY (env : EnvMap) : Option String :=
  envGet env "RAYGUN_APIKEY"

/-- Outcome of `ProductionConfig.init_app`: either one of the `assert`
statements fires, or the Raygun error-reporting provider is attached with
the configured API key. -/
inductive InitResult where
  | assertionError (msg : String)
  | raygunAttached (apiKey : Option String)
  deriving DecidableEq

/-- Model of `ProductionConfig.init_app` (`core/config.py` lines 91-100):
`assert os.environ.get('SECRET_KEY')`, then the conjunction of the four
Grafana class attributes, then
`flask_raygun.Provider(app, app.config['RAYGUN_APIKEY']).attach()`.
A falsy assert argument raises `AssertionError` with the given message. -/
def ProductionConfig_init_app (env : EnvMap) : InitResult :=
  if !truthy (envGet env "SECRET_KEY") then
    .assertionError "SECRET_KEY IS NOT SET!"
  else if !(truthy (GRAFANA_CLIENT_ID env) && truthy (GRAFANA_CLIENT_SECRET env) &&
            truthy (GRAFANA_REDIRECT_URI env) && truthy (GRAFANA_SCOPES env)) then
    .assertionError "Missing Grafana OAuth variables. Check that Docker loads grafana/secrets.grafana and grafana/env.grafana"
  else
    .raygunAttached (RAYGUN_APIKEY env)

/- ## Real-time gateway core

Modelled from the spec: the gateway implementation (Django Channels
consumer) is not part of the shipped sources, only its tests are; every
definition below follows the specification text of sections 3-7. -/

/-- Modelled from the spec: decoded JSON values (section 3,
`InboundMessage` / `OutboundCommand` are JSON objects). -/
inductive Json where
  | null
  | bool (b : Bool)
  | num (n : Int)
  | str (s : String)
  | arr (elems : List Json)
  | obj (fields : List (String × Json))

/-- Field lookup in a JSON object, first binding wins. -/
def getField (fields : List (String × Json)) (key : String) : Option Json :=
  match fields with
  | [] => none
  | (k, v) :: rest => if k == key then some v else getField rest key

/-- Modelled from the spec: the envelope check of the Message Validator
(section 4.3, step 2) — the value must be an object whose `type` key holds
a non-empty string. -/
def hasValidType (j : Json) : Bool :=
  match j with
  | .obj fields =>
    match getField fields "type" with
    | some (.str s) => !(s == "")
    | _ => false
  | _ => false

/-- Modelled from the spec: the validation error taxonomy of
sections 4.3 and 7. -/
inductive ValidationError where
  | MalformedJSON (msg : String)
  | MissingType (detail : List String)
  deriving DecidableEq

/-- The parse-failure message carried by `MalformedJSON`. -/
def malformedMsg : String := "Invalid JSON"

/-- Modelled from the spec: `validate(rawBytes) -> InboundMessage |
ValidationError` (section 4.3). The JSON parser is a parameter: `parse`
returns `none` exactly when the bytes do not parse as JSON. Step 1 maps a
parse failure to `MalformedJSON`; step 2 requires a non-empty string
`type` key and otherwise reports `MissingType` with the offending field;
on success the parsed object is returned unchanged. -/
def validate (parse : String → Option Json) (rawBytes : String) :
    Except ValidationError Json :=
  match parse rawBytes with
  | none => .error (.MalformedJSON malformedMsg)
  | some j => if hasValidType j then .ok j else .error (.MissingType ["type"])

/-- Modelled from the spec: a `ConnectionEntry` (section 3) pairs a
controller identity with its live transport handle and a monotonically
increasing connection sequence number. -/
structure ConnectionEntry where
  identity : Nat
  transport : Nat
  seqNo : Nat
  deriving DecidableEq

/-- Modelled from the spec: the single-process core state — the
Connection Registry mapping, the sequence-number source, the set of
transports that have been force-closed, the frames written to transports
(transport handle paired with the frame), and the `save(controllerId,
InboundMessage)` calls made to the external store. -/
structure CoreState where
  registry : List ConnectionEntry
  nextSeq : Nat
  closedTransports : List Nat
  sentFrames : List (Nat × Json)
  saved : List (Nat × Json)

/-- The state at process start: nothing registered, nothing written. -/
def initState : CoreState :=
  { registry := [], nextSeq := 0, closedTransports := [], sentFrames := [], saved := [] }

/-- Modelled from the spec: `lookup(identity) -> ConnectionEntry | None`
(section 4.2), read-only. -/
def lookup (identity : Nat) (st : CoreState) : Option ConnectionEntry :=
  st.registry.find? (fun e => e.identity == identity)

/-- Modelled from the spec: `register(identity, transportHandle) ->
ConnectionEntry` (section 4.2). If an entry already exists for the
identity, its transport is force-closed and the entry removed; then the
new entry is installed with the next sequence number — one indivisible
step. -/
def register (identity transport : Nat) (st : CoreState) :
    ConnectionEntry × CoreState :=
  let entry : ConnectionEntry :=
    { identity := identity, transport := transport, seqNo := st.nextSeq }
  match lookup identity st with
  | some old =>
    (entry, { st with
      registry := entry :: st.registry.filter (fun e => !(e.identity == identity)),
      closedTransports := old.transport :: st.closedTransports,
      nextSeq := st.nextSeq + 1 })
  | none =>
    (entry, { st with
      registry := entry :: st.registry,
      nextSeq := st.nextSeq + 1 })

/-- Modelled from the spec: the registry mutation of `unregister(identity,
entry)` (section 4.2) — the supplied entry is removed only when it is the
currently registered one, compared by identity and connection sequence
number. -/
def removeCurrent (identity : Nat) (entry : ConnectionEntry)
    (reg : List ConnectionEntry) : List ConnectionEntry :=
  match reg.find? (fun e => e.identity == identity) with
  | some cur =>
    if cur.identity == entry.identity && cur.seqNo == entry.seqNo then
      reg.filter (fun e => !(e.identity == entry.identity && e.seqNo == entry.seqNo))
    else reg
  | none => reg

/-- Modelled from the spec: `unregister(identity, entry)` (section 4.2);
it touches nothing but the registry mapping. -/
def unregister (identity : Nat) (entry : ConnectionEntry) (st : CoreState) :
    CoreState :=
  { st with registry := removeCurrent identity entry st.registry }

/-- Modelled from the spec: the two outcomes of the Relay Gateway
(section 4.5). -/
inductive DeliverResult where
  | Delivered
  | NotConnected
  deriving DecidableEq

/-- Modelled from the spec: `deliver(identity, payload) -> Delivered |
NotConnected` (section 4.5) — look up the registry; push the payload
verbatim to the entry's transport, or report `NotConnected` with no
writes and no buffering. -/
def deliver (identity : Nat) (payload : Json) (st : CoreState) :
    DeliverResult × CoreState :=
  match lookup identity st with
  | some entry =>
    (.Delivered, { st with sentFrames := st.sentFrames ++ [(entry.transport, payload)] })
  | none => (.NotConnected, st)

/-- The fixed credential header convention `token_<secret>` (section 4.1),
as a character list (six characters). -/
def tokenHeader : String := "token_"

/-- Does the raw credential start with the literal `token_` convention? -/
def hasTokenHeader (raw : String) : Bool :=
  raw.data.take 6 == tokenHeader.data

/-- The secret part of a credential: the characters after `token_`. -/
def tokenSecret (raw : String) : String :=
  String.mk (raw.data.drop 6)

/-- Modelled from the spec: `TokenStore.secretToIdentity(secret)`
(section 9) — the external AuthToken store, a secret string bound to at
most one controller identity. -/
def lookupSecret (store : List (String × Nat)) (secret : String) : Option Nat :=
  match store.find? (fun p => p.1 == secret) with
  | some p => some p.2
  | none => none

/-- Modelled from the spec: `resolve(rawToken) -> ControllerIdentity |
NotFound` (section 4.1) — strip the `token_` convention and look the
secret up in the external store; missing convention, malformed input and
unknown secret all come back `none`. -/
def resolve (store : List (String × Nat)) (rawToken : String) : Option Nat :=
  if hasTokenHeader rawToken then lookupSecret store (tokenSecret rawToken)
  else none

/-- Modelled from the spec: the Controller Channel states (section 4.4). -/
inductive ChanState where
  | Connecting
  | Authenticated
  | Closed
  deriving DecidableEq

/-- Modelled from the spec: the outcome of a handshake attempt. -/
inductive HandshakeResult where
  | refused
  | accepted (entry : ConnectionEntry)
  deriving DecidableEq

/-- Modelled from the spec: the handshake (sections 4.4 and 6). The
credential is the optional subprotocol value; an absent credential is an
empty raw token, which the resolver rejects. On `NotFound` the connection
is hard-rejected with the state untouched — no entry registered, no frame
exchanged, the channel never `Authenticated`. On success the entry is
registered and the channel becomes `Authenticated`. -/
def handshake (store : List (String × Nat)) (cred : Option String)
    (transport : Nat) (st : CoreState) :
    HandshakeResult × ChanState × CoreState :=
  match resolve store (cred.getD "") with
  | none => (.refused, .Closed, st)
  | some identity =>
    let r := register identity transport st
    (.accepted r.1, .Authenticated, r.2)

/-- The reply frame `{"error": <message>}` sent on `MalformedJSON`
(section 6). -/
def errorReply (msg : String) : Json :=
  .obj [("error", .str msg)]

/-- The reply frame `{"errors": [<detail>, ...]}` sent on `MissingType`
(section 6). -/
def errorsReply (detail : List String) : Json :=
  .obj [("errors", .arr (detail.map .str))]

/-- Modelled from the spec: a Controller Channel — its registry entry and
its lifecycle state (section 4.4). -/
structure Channel where
  entry : ConnectionEntry
  state : ChanState

/-- Modelled from the spec: one step of the `Authenticated` read loop
(section 4.4). A frame that fails validation gets exactly one reply
frame, then the transport is closed and the entry unregistered and the
channel is `Closed`; a valid frame is handed to the external store once
and the channel stays as it is; a channel that is not `Authenticated`
processes nothing. -/
def handleFrame (parse : String → Option Json) (ch : Channel)
    (st : CoreState) (raw : String) : Channel × CoreState :=
  match ch.state with
  | .Authenticated =>
    match validate parse raw with
    | .ok msg => (ch, { st with saved := st.saved ++ [(ch.entry.identity, msg)] })
    | .error (.MalformedJSON m) =>
      let st1 := { st with
        sentFrames := st.sentFrames ++ [(ch.entry.transport, errorReply m)],
        closedTransports := ch.entry.transport :: st.closedTransports }
      ({ ch with state := .Closed }, unregister ch.entry.identity ch.entry st1)
    | .error (.MissingType detail) =>
      let st1 := { st with
        sentFrames := st.sentFrames ++ [(ch.entry.transport, errorsReply detail)],
        closedTransports := ch.entry.transport :: st.closedTransports }
      ({ ch with state := .Closed }, unregister ch.entry.identity ch.entry st1)
  | _ => (ch, st)

/-- Modelled from the spec: the read loop — inbound frames are processed
strictly in arrival order (section 5); a channel that has left
`Authenticated` processes no further frames. -/
def readLoop (parse : String → Option Json) :
    Channel → CoreState → List String → Channel × CoreState
  | ch, st, [] => (ch, st)
  | ch, st, raw :: rest =>
    let r := handleFrame parse ch st raw
    readLoop parse r.1 r.2 rest

/-- Modelled from the spec: the operations that touch the shared core
state. Each is atomic (section 5), so any concurrent execution is an
arbitrary interleaving, i.e. an arbitrary list of these operations. -/
inductive Op where
  | opRegister (identity transport : Nat)
  | opUnregister (identity : Nat) (entry : ConnectionEntry)
  | opLookup (identity : Nat)
  | opDeliver (identity : Nat) (payload : Json)
  | opHandshake (store : List (String × Nat)) (cred : Option String) (transport : Nat)

/-- Effect of one atomic operation on the core state (`lookup` is
read-only). -/
def step (st : CoreState) : Op → CoreState
  | .opRegister identity transport => (register identity transport st).2
  | .opUnregister identity entry => unregister identity entry st
  | .opLookup _ => st
  | .opDeliver identity payload => (deliver identity payload st).2
  | .opHandshake store cred transport => (handshake store cred transport st).2.2

/-- The state after an arbitrary interleaving of atomic operations,
starting from process start. -/
def runOps (ops : List Op) : CoreState :=
  ops.foldl step initState

/-- The registry invariant of section 3: for any identity, at most one
entry whose identity equals it. -/
def registryAtMostOne (st : CoreState) : Prop :=
  ∀ identity : Nat,
    (st.registry.filter (fun e => e.identity == identity)).length ≤ 1

/-- The frames written to one particular transport. -/
def framesTo (transport : Nat) (st : CoreState) : List (Nat × Json) :=
  st.sentFrames.filter (fun f => f.1 == transport)

/- ## Concrete fixtures used by the witnesses -/

/-- A parser on which every input fails to parse (for malformed-JSON
scenarios). -/
def parseNone : String → Option Json := fun _ => none

/-- The test object `{"hello": "there"}` with no `type` key. -/
def jNoType : Json := .obj [("hello", .str "there")]

/-- The test object `{"type": "tel", "number": 12}`. -/
def jTel : Json := .obj [("type", .str "tel"), ("number", .num 12)]

/-- A parser on which every input parses to `jNoType`. -/
def parseNoType : String → Option Json := fun _ => some jNoType

/-- A parser on which every input parses to `jTel`. -/
def parseTel : String → Option Json := fun _ => some jTel

/-- A registered entry: identity 5, transport 10, sequence number 0. -/
def entryA : ConnectionEntry := { identity := 5, transport := 10, seqNo := 0 }

/-- An authenticated channel owning `entryA`. -/
def chanA : Channel := { entry := entryA, state := .Authenticated }

/-- A core state in which `entryA` is the registered connection. -/
def stA : CoreState :=
  { registry := [entryA], nextSeq := 1, closedTransports := [], sentFrames := [], saved := [] }

/-- A stale entry for identity 5: right identity, wrong sequence number. -/
def staleEntry : ConnectionEntry := { identity := 5, transport := 11, seqNo := 7 }

/-- A token store binding secret "abc" to identity 5. -/
def storeA : List (String × Nat) := [("abc", 5)]

/- ## Theorems -/

/-- C9: `ProductionConfig.init_app` raises an `AssertionError` whenever
`SECRET_KEY` is unset or one of the four Grafana OAuth values is missing,
and the Raygun provider is attached only when every assertion passes. -/
theorem production_init_app_requires_secrets (env : EnvMap) :
    ((envGet env "SECRET_KEY" = none ∨ GRAFANA_CLIENT_ID env = none ∨
        GRAFANA_CLIENT_SECRET env = none ∨ GRAFANA_REDIRECT_URI env = none ∨
        GRAFANA_SCOPES env = none) →
      ∃ msg, ProductionConfig_init_app env = InitResult.assertionError msg) ∧
    (∀ key, ProductionConfig_init_app env = InitResult.raygunAttached key →
      truthy (envGet env "SECRET_KEY") = true ∧
      truthy (GRAFANA_CLIENT_ID env) = true ∧
      truthy (GRAFANA_CLIENT_SECRET env) = true ∧
      truthy (GRAFANA_REDIRECT_URI env) = true ∧
      truthy (GRAFANA_SCOPES env) = true) := by
  constructor
  · intro h
    by_cases hs : truthy (envGet env "SECRET_KEY") = true
    · have hg : truthy (GRAFANA_CLIENT_ID env) = false ∨
          truthy (GRAFANA_CLIENT_SECRET env) = false ∨
          truthy (GRAFANA_REDIRECT_URI env) = false ∨
          truthy (GRAFANA_SCOPES env) = false := by
        rcases h with h | h | h | h | h
        · rw [h] at hs; simp [truthy] at hs
        · exact Or.inl (by rw [h]; rfl)
        · exact Or.inr (Or.inl (by rw [h]; rfl))
        · exact Or.inr (Or.inr (Or.inl (by rw [h]; rfl)))
        · exact Or.inr (Or.inr (Or.inr (by rw [h]; rfl)))
      refine ⟨"Missing Grafana OAuth variables. Check that Docker loads grafana/secrets.grafana and grafana/env.grafana", ?_⟩
      unfold ProductionConfig_init_app
      rcases hg with h1 | h1 | h1 | h1 <;> simp [hs, h1]
    · have hf : truthy (envGet env "SECRET_KEY") = false := by
        cases hb : truthy (envGet env "SECRET_KEY")
        · rfl
        · exact absurd hb hs
      exact ⟨"SECRET_KEY IS NOT SET!", by unfold ProductionConfig_init_app; simp [hf]⟩
  · intro key hk
    unfold ProductionConfig_init_app at hk
    cases hs : truthy (envGet env "SECRET_KEY") with
    | false => rw [hs] at hk; simp at hk
    | true =>
      rw [hs] at hk
      cases hg : (truthy (GRAFANA_CLIENT_ID env) && truthy (GRAFANA_CLIENT_SECRET env) &&
          truthy (GRAFANA_REDIRECT_URI env) && truthy (GRAFANA_SCOPES env)) with
      | false => rw [hg] at hk; simp at hk
      | true =>
        simp only [Bool.and_eq_true] at hg
        exact ⟨rfl, hg.1.1.1, hg.1.1.2, hg.1.2, hg.2⟩

/-- Witness for C9: in the empty environment `SECRET_KEY` is unset and
`init_app` ends in an `AssertionError`. -/
theorem production_init_app_requires_secrets_witness :
    ∃ msg, ProductionConfig_init_app [] = InitResult.assertionError msg :=
  (production_init_app_requires_secrets []).1 (Or.inl rfl)

/-- C10: a `secrets.core` line sets an environment variable exactly when
splitting the stripped line on `=` yields two parts, in which case the
variable named by the first part receives the second part with all
double quotes removed; any other line leaves the environment untouched;
and the file loop processes lines in order. -/
theorem secrets_line_sets_env_iff_two_parts (env : EnvMap) (line : String) :
    ((∃ name value, line.trim.splitOn "=" = [name, value] ∧
        processLine env line = envSet env name (value.replace "\"" "")) ∨
      ((line.trim.splitOn "=").length ≠ 2 ∧ processLine env line = env)) ∧
    ∀ rest, importSecrets env (line :: rest) =
      importSecrets (processLine env line) rest := by
  constructor
  · rcases h : line.trim.splitOn "=" with _ | ⟨a, _ | ⟨b, _ | ⟨c, tail⟩⟩⟩
    · exact Or.inr ⟨by simp [h], by simp [processLine, h]⟩
    · exact Or.inr ⟨by simp [h], by simp [processLine, h]⟩
    · exact Or.inl ⟨a, b, rfl, by simp [processLine, h]⟩
    · exact Or.inr ⟨by simp [h], by simp [processLine, h]⟩
  · intro rest; rfl

/-- The registry mutation of `unregister` never adds entries. -/
theorem removeCurrent_sublist (identity : Nat) (entry : ConnectionEntry)
    (reg : List ConnectionEntry) :
    List.Sublist (removeCurrent identity entry reg) reg := by
  unfold removeCurrent
  split
  · split
    · exact List.filter_sublist _
    · exact List.Sublist.refl _
  · exact List.Sublist.refl _

/-- After erasing an identity, no entry with that identity survives. -/
theorem filter_erased_nil (reg : List ConnectionEntry) (idA : Nat) :
    (reg.filter (fun e => !(e.identity == idA))).filter
      (fun e => e.identity == idA) = [] := by
  induction reg with
  | nil => rfl
  | cons a tail ih =>
    by_cases h : a.identity = idA
    · simp [List.filter_cons, h, ih]
    · simp [List.filter_cons, h, ih]

/-- If a registry find fails, the matching filter is empty. -/
theorem filter_eq_nil_of_find_none (reg : List ConnectionEntry) (idA : Nat)
    (h : reg.find? (fun e => e.identity == idA) = none) :
    reg.filter (fun e => e.identity == idA) = [] := by
  induction reg with
  | nil => rfl
  | cons a tail ih =>
    cases hp : (a.identity == idA) with
    | true => simp [List.find?_cons, hp] at h
    | false =>
      simp only [List.find?_cons, hp] at h
      simp [List.filter_cons, hp, ih h]

/-- Registration preserves the at-most-one-entry-per-identity invariant. -/
theorem atMostOne_register (identity transport : Nat) (st : CoreState)
    (h : registryAtMostOne st) :
    registryAtMostOne (register identity transport st).2 := by
  intro id2
  cases hl : lookup identity st with
  | some old =>
    simp only [register, hl]
    by_cases hid : identity = id2
    · subst hid
      rw [List.filter_cons_of_pos (by simp)]
      simp [filter_erased_nil]
    · rw [List.filter_cons_of_neg (by simp [hid])]
      exact le_trans
        (List.Sublist.length_le ((List.filter_sublist _).filter _))
        (h id2)
  | none =>
    simp only [register, hl]
    by_cases hid : identity = id2
    · subst hid
      rw [List.filter_cons_of_pos (by simp)]
      have hnil : st.registry.filter (fun e => e.identity == identity) = [] :=
        filter_eq_nil_of_find_none st.registry identity hl
      simp [hnil]
    · rw [List.filter_cons_of_neg (by simp [hid])]
      exact h id2

/-- Unregistration preserves the at-most-one-entry-per-identity invariant. -/
theorem atMostOne_unregister (identity : Nat) (entry : ConnectionEntry)
    (st : CoreState) (h : registryAtMostOne st) :
    registryAtMostOne (unregister identity entry st) := by
  intro id2
  exact le_trans
    (List.Sublist.length_le
      ((removeCurrent_sublist identity entry st.registry).filter _))
    (h id2)

/-- Delivery never touches the registry. -/
theorem deliver_registry_eq (identity : Nat) (payload : Json) (st : CoreState) :
    (deliver identity payload st).2.registry = st.registry := by
  unfold deliver
  cases hl : lookup identity st <;> simp

/-- Every atomic operation preserves the registry invariant. -/
theorem atMostOne_step (st : CoreState) (op : Op) (h : registryAtMostOne st) :
    registryAtMostOne (step st op) := by
  cases op with
  | opRegister identity transport => exact atMostOne_register identity transport st h
  | opUnregister identity entry => exact atMostOne_unregister identity entry st h
  | opLookup _ => exact h
  | opDeliver identity payload =>
    intro id2
    simp only [step]
    rw [deliver_registry_eq]
    exact h id2
  | opHandshake store cred transport =>
    cases hr : resolve store (cred.getD "") with
    | none => simpa [step, handshake, hr] using h
    | some identity =>
      have := atMostOne_register identity transport st h
      simpa [step, handshake, hr] using this

/-- The registry invariant holds along any interleaving of operations. -/
theorem atMostOne_foldl (ops : List Op) :
    ∀ st, registryAtMostOne st → registryAtMostOne (ops.foldl step st) := by
  induction ops with
  | nil => intro st h; exact h
  | cons op rest ih => intro st h; exact ih _ (atMostOne_step st op h)

/-- C1: for every controller identity, after any interleaving of the
atomic operations (register, unregister, lookup, deliver, handshake) —
in particular under concurrent registrations for the same identity —
the Connection Registry contains at most one entry whose identity
equals that identity. -/
theorem registry_at_most_one_entry_per_identity (ops : List Op) :
    registryAtMostOne (runOps ops) :=
  atMostOne_foldl ops initState (by intro id2; simp [initState])

/-- A channel that has left `Authenticated` processes no further frames:
the read loop is inert on a closed channel. -/
theorem readLoop_of_closed (parse : String → Option Json) (frames : List String) :
    ∀ ch st, ch.state = ChanState.Closed → readLoop parse ch st frames = (ch, st) := by
  induction frames with
  | nil => intro ch st h; rfl
  | cons raw rest ih =>
    intro ch st h
    have hf : handleFrame parse ch st raw = (ch, st) := by
      unfold handleFrame; rw [h]
    simp only [readLoop]
    rw [hf]
    exact ih ch st h

/-- C3: a frame whose bytes do not parse as JSON yields
`MalformedJSON`, exactly one reply frame `{"error": <message>}` is
written to the connection's transport, the transport is closed and the
channel state becomes `Closed`, and no later frame of the connection is
processed (nothing further is sent or saved). -/
theorem malformed_json_closes_connection (parse : String → Option Json)
    (ch : Channel) (st : CoreState) (raw : String) (rest : List String)
    (hAuth : ch.state = ChanState.Authenticated) (hParse : parse raw = none) :
    validate parse raw = Except.error (.MalformedJSON malformedMsg) ∧
    (readLoop parse ch st (raw :: rest)).1.state = ChanState.Closed ∧
    (readLoop parse ch st (raw :: rest)).2.sentFrames =
      st.sentFrames ++ [(ch.entry.transport, errorReply malformedMsg)] ∧
    ch.entry.transport ∈ (readLoop parse ch st (raw :: rest)).2.closedTransports ∧
    (readLoop parse ch st (raw :: rest)).2.saved = st.saved := by
  have hval : validate parse raw = Except.error (.MalformedJSON malformedMsg) := by
    unfold validate; rw [hParse]
  have hstep : handleFrame parse ch st raw =
      ({ ch with state := ChanState.Closed },
        unregister ch.entry.identity ch.entry
          { st with
            sentFrames := st.sentFrames ++ [(ch.entry.transport, errorReply malformedMsg)],
            closedTransports := ch.entry.transport :: st.closedTransports }) := by
    unfold handleFrame; rw [hAuth, hval]
  have hloop : readLoop parse ch st (raw :: rest) =
      ({ ch with state := ChanState.Closed },
        unregister ch.entry.identity ch.entry
          { st with
            sentFrames := st.sentFrames ++ [(ch.entry.transport, errorReply malformedMsg)],
            closedTransports := ch.entry.transport :: st.closedTransports }) := by
    simp only [readLoop]
    rw [hstep]
    exact readLoop_of_closed parse rest _ _ rfl
  refine ⟨hval, ?_, ?_, ?_, ?_⟩
  · rw [hloop]
  · rw [hloop]; rfl
  · rw [hloop]; exact List.mem_cons_self _ _
  · rw [hloop]; rfl

/-- Witness for C3 on the test scenario: the frame "This is not JSON"
with a failing parser. -/
theorem malformed_json_closes_connection_witness :
    validate parseNone "This is not JSON" = Except.error (.MalformedJSON malformedMsg) ∧
    (readLoop parseNone chanA stA ["This is not JSON"]).1.state = ChanState.Closed ∧
    (readLoop parseNone chanA stA ["This is not JSON"]).2.sentFrames =
      stA.sentFrames ++ [(chanA.entry.transport, errorReply malformedMsg)] ∧
    chanA.entry.transport ∈
      (readLoop parseNone chanA stA ["This is not JSON"]).2.closedTransports ∧
    (readLoop parseNone chanA stA ["This is not JSON"]).2.saved = stA.saved :=
  malformed_json_closes_connection parseNone chanA stA "This is not JSON" [] rfl rfl

/-- C4: a frame that parses but is not an object with a non-empty string
`type` key yields `MissingType` with the offending field list, exactly
one reply frame `{"errors": [...]}` is written, the transport is closed,
the channel state becomes `Closed`, and no later frame is processed. -/
theorem missing_type_closes_connection (parse : String → Option Json)
    (ch : Channel) (st : CoreState) (raw : String) (rest : List String) (j : Json)
    (hAuth : ch.state = ChanState.Authenticated) (hParse : parse raw = some j)
    (hType : hasValidType j = false) :
    validate parse raw = Except.error (.MissingType ["type"]) ∧
    (readLoop parse ch st (raw :: rest)).1.state = ChanState.Closed ∧
    (readLoop parse ch st (raw :: rest)).2.sentFrames =
      st.sentFrames ++ [(ch.entry.transport, errorsReply ["type"])] ∧
    ch.entry.transport ∈ (readLoop parse ch st (raw :: rest)).2.closedTransports ∧
    (readLoop parse ch st (raw :: rest)).2.saved = st.saved := by
  have hval : validate parse raw = Except.error (.MissingType ["type"]) := by
    unfold validate; rw [hParse]; simp [hType]
  have hstep : handleFrame parse ch st raw =
      ({ ch with state := ChanState.Closed },
        unregister ch.entry.identity ch.entry
          { st with
            sentFrames := st.sentFrames ++ [(ch.entry.transport, errorsReply ["type"])],
            closedTransports := ch.entry.transport :: st.closedTransports }) := by
    unfold handleFrame; rw [hAuth, hval]
  have hloop : readLoop parse ch st (raw :: rest) =
      ({ ch with state := ChanState.Closed },
        unregister ch.entry.identity ch.entry
          { st with
            sentFrames := st.sentFrames ++ [(ch.entry.transport, errorsReply ["type"])],
            closedTransports := ch.entry.transport :: st.closedTransports }) := by
    simp only [readLoop]
    rw [hstep]
    exact readLoop_of_closed parse rest _ _ rfl
  refine ⟨hval, ?_, ?_, ?_, ?_⟩
  · rw [hloop]
  · rw [hloop]; rfl
  · rw [hloop]; exact List.mem_cons_self _ _
  · rw [hloop]; rfl

/-- Witness for C4 on the test scenario: the object `{"hello": "there"}`. -/
theorem missing_type_closes_connection_witness :
    validate parseNoType "frame" = Except.error (.MissingType ["type"]) ∧
    (readLoop parseNoType chanA stA ["frame"]).1.state = ChanState.Closed ∧
    (readLoop parseNoType chanA stA ["frame"]).2.sentFrames =
      stA.sentFrames ++ [(chanA.entry.transport, errorsReply ["type"])] ∧
    chanA.entry.transport ∈
      (readLoop parseNoType chanA stA ["frame"]).2.closedTransports ∧
    (readLoop parseNoType chanA stA ["frame"]).2.saved = stA.saved :=
  missing_type_closes_connection parseNoType chanA stA "frame" [] jNoType rfl rfl
    (by decide)

/-- C5: a frame that passes validation is returned unchanged by the
validator, is handed to the external store exactly once paired with the
connection's controller identity, no reply frame is sent, and the
channel stays exactly as it was (in particular `Authenticated`). -/
theorem valid_frame_saved_once (parse : String → Option Json)
    (ch : Channel) (st : CoreState) (raw : String) (j : Json)
    (hAuth : ch.state = ChanState.Authenticated) (hParse : parse raw = some j)
    (hType : hasValidType j = true) :
    validate parse raw = Except.ok j ∧
    handleFrame parse ch st raw =
      (ch, { st with saved := st.saved ++ [(ch.entry.identity, j)] }) := by
  have hval : validate parse raw = Except.ok j := by
    unfold validate; rw [hParse]; simp [hType]
  exact ⟨hval, by unfold handleFrame; rw [hAuth, hval]⟩

/-- Witness for C5 on the test scenario: the object
`{"type": "tel", "number": 12}`. -/
theorem valid_frame_saved_once_witness :
    validate parseTel "frame" = Except.ok jTel ∧
    handleFrame parseTel chanA stA "frame" =
      (chanA, { stA with saved := stA.saved ++ [(chanA.entry.identity, jTel)] }) :=
  valid_frame_saved_once parseTel chanA stA "frame" jTel rfl rfl (by decide)

/-- C6: a handshake whose credential is absent, lacks the `token_`
convention, or carries an unknown secret makes the Token Resolver
return `NotFound`; the connection is refused with the core state
untouched — no frame is exchanged, no entry is registered — and the
channel never reaches `Authenticated`. -/
theorem failed_auth_refused_at_handshake (store : List (String × Nat))
    (cred : Option String) (transport : Nat) (st : CoreState)
    (h : cred = none ∨
      (∃ raw, cred = some raw ∧ hasTokenHeader raw = false) ∨
      (∃ raw, cred = some raw ∧ hasTokenHeader raw = true ∧
        lookupSecret store (tokenSecret raw) = none)) :
    resolve store (cred.getD "") = none ∧
    handshake store cred transport st =
      (HandshakeResult.refused, ChanState.Closed, st) := by
  have hres : resolve store (cred.getD "") = none := by
    rcases h with h | ⟨raw, hc, hraw⟩ | ⟨raw, hc, hraw, hsec⟩
    · subst h
      have hempty : (none : Option String).getD "" = "" := rfl
      rw [hempty]
      unfold resolve
      rw [show hasTokenHeader "" = false by decide]
      simp
    · subst hc
      have hval : (some raw).getD "" = raw := rfl
      rw [hval]
      unfold resolve
      rw [hraw]
      simp
    · subst hc
      have hval : (some raw).getD "" = raw := rfl
      rw [hval]
      unfold resolve
      rw [hraw, hsec]
      simp
  exact ⟨hres, by unfold handshake; rw [hres]⟩

/-- Witness for C6: a credential with the right convention but an
unknown secret is refused and changes nothing. -/
theorem failed_auth_refused_at_handshake_witness :
    resolve storeA ((some "token_abcXYZ").getD "") = none ∧
    handshake storeA (some "token_abcXYZ") 3 stA =
      (HandshakeResult.refused, ChanState.Closed, stA) :=
  failed_auth_refused_at_handshake storeA (some "token_abcXYZ") 3 stA
    (Or.inr (Or.inr ⟨"token_abcXYZ", rfl, by decide, by decide⟩))

/-- C7: `deliver(identity, payload)` pushes the payload verbatim to the
registered entry's transport and reports `Delivered` when an entry
exists, and otherwise reports `NotConnected` leaving the state entirely
unchanged — no transport write, no buffering, no queuing. -/
theorem deliver_routes_or_reports (identity : Nat) (payload : Json)
    (st : CoreState) :
    (∀ entry : ConnectionEntry, lookup identity st = some entry →
      deliver identity payload st =
        (DeliverResult.Delivered,
          { st with sentFrames := st.sentFrames ++ [(entry.transport, payload)] })) ∧
    (lookup identity st = none →
      deliver identity payload st = (DeliverResult.NotConnected, st)) := by
  constructor
  · intro entry he
    unfold deliver
    rw [he]
  · intro he
    unfold deliver
    rw [he]

/-- Witness for C7: delivery to the connected identity 5 writes the
payload to transport 10; delivery to the unconnected identity 6 changes
nothing. -/
theorem deliver_routes_or_reports_witness :
    deliver 5 jTel stA =
      (DeliverResult.Delivered,
        { stA with sentFrames := stA.sentFrames ++ [(entryA.transport, jTel)] }) ∧
    deliver 6 jTel stA = (DeliverResult.NotConnected, stA) :=
  ⟨(deliver_routes_or_reports 5 jTel stA).1 entryA (by decide),
    (deliver_routes_or_reports 6 jTel stA).2 (by decide)⟩

/-- C8: `unregister` leaves the registry unchanged whenever the supplied
entry is not the currently registered one, where currency compares both
the identity and the connection sequence number (so a stale entry with
the right identity but an old sequence number is a no-op). -/
theorem unregister_stale_entry_noop (identity : Nat) (entry : ConnectionEntry)
    (st : CoreState)
    (h : ∀ cur, lookup identity st = some cur →
      ¬(cur.identity = entry.identity ∧ cur.seqNo = entry.seqNo)) :
    unregister identity entry st = st := by
  unfold unregister removeCurrent
  cases hf : st.registry.find? (fun e => e.identity == identity) with
  | none => rfl
  | some cur =>
    have hne := h cur (by unfold lookup; exact hf)
    have hfalse : (cur.identity == entry.identity && cur.seqNo == entry.seqNo) = false := by
      rcases not_and_or.mp hne with h1 | h1 <;> simp [h1]
    simp [hfalse]

/-- Witness for C8: a stale entry for identity 5 with sequence number 7
(the registered one has sequence number 0) is ignored. -/
theorem unregister_stale_entry_noop_witness :
    unregister 5 staleEntry stA = stA :=
  unregister_stale_entry_noop 5 staleEntry stA (by
    intro cur hcur
    have hc : cur = entryA := by
      have : (some entryA : Option ConnectionEntry) = some cur := by
        rw [← hcur]; decide
      exact (Option.some_inj.mp this).symm
    subst hc
    decide)

/-- C2: when an entry is already registered for an identity, a second
successful handshake for it closes the first connection's transport,
wins the registry (lookup returns the new entry, on the new transport),
and a subsequent `deliver` for the identity reports `Delivered`, writes
the payload to the second connection's transport, and writes nothing to
the first connection's transport. -/
theorem second_handshake_supersedes_first (store : List (String × Nat))
    (st : CoreState) (raw : String) (identity t2 : Nat) (e1 : ConnectionEntry)
    (hres : resolve store raw = some identity)
    (hcur : lookup identity st = some e1) :
    (handshake store (some raw) t2 st).2.1 = ChanState.Authenticated ∧
    e1.transport ∈ (handshake store (some raw) t2 st).2.2.closedTransports ∧
    ∃ e2 : ConnectionEntry,
      (handshake store (some raw) t2 st).1 = HandshakeResult.accepted e2 ∧
      e2.transport = t2 ∧
      lookup identity (handshake store (some raw) t2 st).2.2 = some e2 ∧
      ∀ payload : Json,
        (deliver identity payload (handshake store (some raw) t2 st).2.2).1 =
          DeliverResult.Delivered ∧
        framesTo t2 (deliver identity payload (handshake store (some raw) t2 st).2.2).2 =
          framesTo t2 (handshake store (some raw) t2 st).2.2 ++ [(t2, payload)] ∧
        (e1.transport ≠ t2 →
          framesTo e1.transport
              (deliver identity payload (handshake store (some raw) t2 st).2.2).2 =
            framesTo e1.transport (handshake store (some raw) t2 st).2.2) := by
  have hh : handshake store (some raw) t2 st =
      (HandshakeResult.accepted ⟨identity, t2, st.nextSeq⟩, ChanState.Authenticated,
        { st with
          registry := ⟨identity, t2, st.nextSeq⟩ ::
            st.registry.filter (fun e => !(e.identity == identity)),
          closedTransports := e1.transport :: st.closedTransports,
          nextSeq := st.nextSeq + 1 }) := by
    have h1 : (some raw).getD "" = raw := rfl
    simp only [handshake, h1, hres, register, hcur]
  have hl2 : lookup identity (handshake store (some raw) t2 st).2.2 =
      some ⟨identity, t2, st.nextSeq⟩ := by
    rw [hh]
    unfold lookup
    simp [List.find?_cons]
  refine ⟨by rw [hh], by rw [hh]; exact List.mem_cons_self _ _,
    ⟨identity, t2, st.nextSeq⟩, by rw [hh], rfl, hl2, ?_⟩
  intro payload
  have hd : deliver identity payload (handshake store (some raw) t2 st).2.2 =
      (DeliverResult.Delivered,
        { (handshake store (some raw) t2 st).2.2 with
          sentFrames := (handshake store (some raw) t2 st).2.2.sentFrames ++
            [((⟨identity, t2, st.nextSeq⟩ : ConnectionEntry).transport, payload)] }) := by
    unfold deliver
    rw [hl2]
  refine ⟨by rw [hd], ?_, ?_⟩
  · rw [hd]
    unfold framesTo
    simp [List.filter_append]
  · intro hne
    have ht : (t2 == e1.transport) = false := by
      simp
      exact fun heq => hne heq.symm
    rw [hd]
    unfold framesTo
    simp [List.filter_append, ht]

/-- Witness for C2: with secret "abc" bound to identity 5 and `entryA`
(transport 10) registered, a second handshake on transport 20 evicts it. -/
theorem second_handshake_supersedes_first_witness :
    (handshake storeA (some "token_abc") 20 stA).2.1 = ChanState.Authenticated ∧
    entryA.transport ∈ (handshake storeA (some "token_abc") 20 stA).2.2.closedTransports ∧
    ∃ e2 : ConnectionEntry,
      (handshake storeA (some "token_abc") 20 stA).1 = HandshakeResult.accepted e2 ∧
      e2.transport = 20 ∧
      lookup 5 (handshake storeA (some "token_abc") 20 stA).2.2 = some e2 ∧
      ∀ payload : Json,
        (deliver 5 payload (handshake storeA (some "token_abc") 20 stA).2.2).1 =
          DeliverResult.Delivered ∧
        framesTo 20 (deliver 5 payload (handshake storeA (some "token_abc") 20 stA).2.2).2 =
          framesTo 20 (handshake storeA (some "token_abc") 20 stA).2.2 ++ [(20, payload)] ∧
        (entryA.transport ≠ 20 →
          framesTo entryA.transport
              (deliver 5 payload (handshake storeA (some "token_abc") 20 stA).2.2).2 =
            framesTo entryA.transport (handshake storeA (some "token_abc") 20 stA).2.2) :=
  second_handshake_supersedes_first storeA stA "token_abc" 5 20 entryA
    (by decide) (by decide)
